import Mathlib

/-!
Verification of the triage / risk-scoring engine of the telemedicine backend.

The definitions below are a shallow embedding of the Python sources
`backend/services/risk_assessment_service.py` and
`backend/services/mental_health_security.py`:

* Python strings are Lean `String`s; text scanning works on `List Char`
  (`str.lower()` is modelled character-wise with `Char.toLower`, faithful for
  the ASCII lexicons involved; `needle in haystack` is `hasSub`).
* Python `int` is `Int`; scores, which only ever accumulate non-negative
  weights, are `Nat`; vital-sign values (Python `float`) are modelled as `ℚ`
  (the code only compares them against exact decimal band bounds).
* Dynamic dict payloads become structures with `Option` fields; Python
  truthiness tests (`if age:`, `if pain_scale:`) are modelled explicitly
  (`None`/`0`/`""`/`{}` are falsy).
* A `try/except` whose body cannot raise on well-typed input is modelled by a
  Boolean fault flag (`exc`) standing for "an exception was raised somewhere
  inside the try block"; a reachable exception (e.g. `int('abc')` in the
  follow-up scorer) is modelled by the corresponding partial operation
  returning `none`, which the enclosing handler converts exactly as the
  source does.
* The impure timestamp `datetime.utcnow().isoformat()` is an explicit `ts`
  parameter, and the bound `str(e)` of an except-clause an explicit `es`.
-/

/-! ## Python text primitives -/

/-- `needle.isPrefixOf hay` on character lists, written out explicitly. -/
def listStartsWith : List Char → List Char → Bool
  | [], _ => true
  | _ :: _, [] => false
  | a :: as, b :: bs => a == b && listStartsWith as bs

/-- Python `needle in hay` (substring containment) on character lists. -/
def hasSub (needle : List Char) : List Char → Bool
  | [] => needle.isEmpty
  | c :: t => listStartsWith needle (c :: t) || hasSub needle t

/-- Python `s.lower()` restricted to ASCII, as used by the scoring code. -/
def lowerChars (s : String) : List Char := s.toList.map Char.toLower

/-- Python `' '.join(pieces)` on character lists. -/
def joinSpace : List (List Char) → List Char
  | [] => []
  | [p] => p
  | p :: ps => p ++ ' ' :: joinSpace ps

def isDigitCh (c : Char) : Bool := '0' ≤ c && c ≤ '9'

def natOfDigits (l : List Char) : Nat :=
  l.foldl (fun a c => a * 10 + (c.toNat - '0'.toNat)) 0

/-- Python `int(s)` on a string: optional sign followed by digits, else a
`ValueError` (`none`). -/
def parseIntPy (s : String) : Option Int :=
  match s.toList with
  | '-' :: ds =>
    if ds.isEmpty then none
    else if ds.all isDigitCh then some (-(natOfDigits ds : Int)) else none
  | '+' :: ds =>
    if ds.isEmpty then none
    else if ds.all isDigitCh then some (natOfDigits ds : Int) else none
  | ds =>
    if ds.isEmpty then none
    else if ds.all isDigitCh then some (natOfDigits ds : Int) else none

/-- Python `float(s)` on a string, for the decimal forms the vitals payloads
use: optional sign, digits, optional decimal point and digits. Anything else
is a `ValueError` (`none`). -/
def parseFloatQ (s : String) : Option ℚ :=
  let core : List Char → Option ℚ := fun cs =>
    let ip := cs.takeWhile isDigitCh
    match cs.dropWhile isDigitCh with
    | [] => if ip.isEmpty then none else some (natOfDigits ip : ℚ)
    | '.' :: fp =>
      if fp.all isDigitCh && !(ip.isEmpty && fp.isEmpty) then
        some ((natOfDigits ip : ℚ) + (natOfDigits fp : ℚ) / (10 ^ fp.length))
      else none
    | _ => none
  match s.toList with
  | '-' :: t => (core t).map (fun q => -q)
  | '+' :: t => core t
  | t => core t

/-! ## Mental-health crisis detector (`mental_health_security.py`) -/

/-- A value stored in the `responses` dict: free text or a numeric rating. -/
inductive MHVal
  | str (s : String)
  | int (n : Int)
deriving DecidableEq

/-- Input dict of `assess_crisis_risk` (`user_input`): the keys the code
reads, with Python-absent keys as `none`/`[]`/`""` defaults exactly as
`dict.get` supplies them. -/
structure MHInput where
  responses : List (String × MHVal)
  symptoms : List String
  triggers : List String
  support_system : String

/-- Result dict of `assess_crisis_risk`. -/
structure MHResult where
  risk_level : String
  risk_score : Nat
  risk_indicators : List String
  crisis_intervention_needed : Bool
  professional_referral_suggested : Bool
  assessment_timestamp : String
deriving DecidableEq

/-- `_load_risk_keywords()['crisis']`. -/
def crisis_keywords : List String :=
  ["suicide", "kill myself", "end it all", "not worth living",
   "better off dead", "hurt myself", "self-harm", "cutting"]

/-- `_load_risk_keywords()['high_risk']`. -/
def high_risk_mh_keywords : List String :=
  ["hopeless", "worthless", "trapped", "burden", "pain",
   "can\u0027t go on", "no point", "give up"]

/-- `_load_risk_keywords()['moderate_risk']`. -/
def moderate_risk_mh_keywords : List String :=
  ["depressed", "anxious", "overwhelmed", "stressed",
   "panic", "worried", "sad", "lonely"]

/-- One keyword-tier loop: for each keyword contained in `text` add the
tier weight `w` and append a `label ++ keyword` indicator, in list order. -/
def tierScan (text : List Char) (w : Nat) (label : String) :
    List String → Nat × List String
  | [] => (0, [])
  | k :: ks =>
    let rest := tierScan text w label ks
    if hasSub k.toList text then (w + rest.1, (label ++ k) :: rest.2)
    else rest

/-- The `text_inputs` list collected by `assess_crisis_risk`: string response
values, symptoms, triggers, and a non-empty support-system text, all
lowercased. -/
def crisisTextInputs (inp : MHInput) : List (List Char) :=
  (inp.responses.filterMap (fun p =>
    match p.2 with
    | MHVal.str v => some (lowerChars v)
    | MHVal.int _ => none))
  ++ inp.symptoms.map lowerChars
  ++ inp.triggers.map lowerChars
  ++ (if inp.support_system = "" then [] else [lowerChars inp.support_system])

/-- `mood_rating` overlay: an integer rating ≤ 3 adds +3. -/
def moodOverlay : Option MHVal → Nat × List String
  | some (MHVal.int n) =>
    if n ≤ 3 then (3, ["Very low mood rating"]) else (0, [])
  | _ => (0, [])

/-- `anxiety_level` overlay: an integer rating ≥ 8 adds +2. -/
def anxietyOverlay : Option MHVal → Nat × List String
  | some (MHVal.int n) =>
    if n ≥ 8 then (2, ["High anxiety level"]) else (0, [])
  | _ => (0, [])

/-- `stress_level` overlay: an integer rating ≥ 8 adds +2. -/
def stressOverlay : Option MHVal → Nat × List String
  | some (MHVal.int n) =>
    if n ≥ 8 then (2, ["High stress level"]) else (0, [])
  | _ => (0, [])

/-- The numeric-response overlay of `assess_crisis_risk`. -/
def crisisNumericOverlay (responses : List (String × MHVal)) :
    Nat × List String :=
  let mood := moodOverlay (responses.lookup "mood_rating")
  let anx := anxietyOverlay (responses.lookup "anxiety_level")
  let stress := stressOverlay (responses.lookup "stress_level")
  (mood.1 + anx.1 + stress.1, mood.2 ++ anx.2 ++ stress.2)

/-- The normal (no-exception) path of `assess_crisis_risk`. -/
def crisisRiskNormal (ts : String) (inp : MHInput) : MHResult :=
  let all_text := joinSpace (crisisTextInputs inp)
  let c := tierScan all_text 10 "Crisis indicator: " crisis_keywords
  let h := tierScan all_text 5 "High risk indicator: " high_risk_mh_keywords
  let m := tierScan all_text 2 "Moderate risk indicator: " moderate_risk_mh_keywords
  let num := crisisNumericOverlay inp.responses
  let risk_score := c.1 + h.1 + m.1 + num.1
  let risk_level : String :=
    if risk_score ≥ 10 then "crisis"
    else if risk_score ≥ 6 then "high"
    else if risk_score ≥ 3 then "moderate"
    else "low"
  { risk_level := risk_level
    risk_score := risk_score
    risk_indicators := c.2 ++ h.2 ++ m.2 ++ num.2
    crisis_intervention_needed := risk_level == "crisis"
    professional_referral_suggested :=
      risk_level == "crisis" || risk_level == "high"
    assessment_timestamp := ts }

/-- `MentalHealthSecurityService.assess_crisis_risk`. `exc` is the fault
flag of the surrounding `try/except`: when an exception is raised anywhere
in the body, the handler returns the fixed fail-safe-high result. -/
def assess_crisis_risk (exc : Bool) (ts : String) (inp : MHInput) : MHResult :=
  if exc then
    { risk_level := "high"
      risk_score := 999
      risk_indicators := ["Assessment system error - defaulting to high risk"]
      crisis_intervention_needed := true
      professional_referral_suggested := true
      assessment_timestamp := ts }
  else crisisRiskNormal ts inp

/-! ### Bounds for the normal-path crisis score -/

theorem tierScan_fst_le (text : List Char) (w : Nat) (label : String) :
    ∀ ks : List String, (tierScan text w label ks).1 ≤ w * ks.length := by
  intro ks
  induction ks with
  | nil => simp [tierScan]
  | cons k ks ih =>
    simp only [tierScan, List.length_cons, Nat.mul_succ]
    split
    · show w + (tierScan text w label ks).1 ≤ w * ks.length + w
      omega
    · omega

theorem moodOverlay_fst_le (o : Option MHVal) : (moodOverlay o).1 ≤ 3 := by
  rcases o with _ | v
  · simp [moodOverlay]
  · rcases v with s | n
    · simp [moodOverlay]
    · by_cases h : n ≤ 3 <;> simp [moodOverlay, h]

theorem anxietyOverlay_fst_le (o : Option MHVal) : (anxietyOverlay o).1 ≤ 2 := by
  rcases o with _ | v
  · simp [anxietyOverlay]
  · rcases v with s | n
    · simp [anxietyOverlay]
    · by_cases h : n ≥ 8 <;> simp [anxietyOverlay, h]

theorem stressOverlay_fst_le (o : Option MHVal) : (stressOverlay o).1 ≤ 2 := by
  rcases o with _ | v
  · simp [stressOverlay]
  · rcases v with s | n
    · simp [stressOverlay]
    · by_cases h : n ≥ 8 <;> simp [stressOverlay, h]

theorem crisisNumericOverlay_fst_le (rs : List (String × MHVal)) :
    (crisisNumericOverlay rs).1 ≤ 7 := by
  have h1 := moodOverlay_fst_le (rs.lookup "mood_rating")
  have h2 := anxietyOverlay_fst_le (rs.lookup "anxiety_level")
  have h3 := stressOverlay_fst_le (rs.lookup "stress_level")
  simp only [crisisNumericOverlay]
  omega

/-- The normal path's score is bounded by the lexicon sizes: at most
`10*8 + 5*8 + 2*8 + 7 = 143`. -/
theorem crisisRiskNormal_score_le (ts : String) (inp : MHInput) :
    (crisisRiskNormal ts inp).risk_score ≤ 143 := by
  have hc := tierScan_fst_le (joinSpace (crisisTextInputs inp)) 10
    "Crisis indicator: " crisis_keywords
  have hh := tierScan_fst_le (joinSpace (crisisTextInputs inp)) 5
    "High risk indicator: " high_risk_mh_keywords
  have hm := tierScan_fst_le (joinSpace (crisisTextInputs inp)) 2
    "Moderate risk indicator: " moderate_risk_mh_keywords
  have hn := crisisNumericOverlay_fst_le inp.responses
  have lc : crisis_keywords.length = 8 := rfl
  have lh : high_risk_mh_keywords.length = 8 := rfl
  have lm : moderate_risk_mh_keywords.length = 8 := rfl
  rw [lc] at hc
  rw [lh] at hh
  rw [lm] at hm
  simp only [crisisRiskNormal]
  omega

/-! ## Risk assessment service (`risk_assessment_service.py`) -/

/-- `RiskAssessmentService.emergency_keywords`. -/
def emergency_keywords : List String :=
  ["chest pain", "difficulty breathing", "shortness of breath", "severe bleeding",
   "unconscious", "seizure", "stroke symptoms", "heart attack", "severe allergic reaction",
   "poisoning", "severe burns", "broken bone", "head injury", "severe abdominal pain"]

/-- `RiskAssessmentService.high_risk_keywords`. -/
def high_risk_keywords : List String :=
  ["severe pain", "high fever", "persistent vomiting", "dehydration",
   "severe headache", "vision problems", "severe dizziness", "fainting",
   "blood in stool", "blood in urine", "severe rash", "difficulty swallowing"]

/-- `RiskAssessmentService.moderate_risk_keywords`. -/
def moderate_risk_keywords : List String :=
  ["moderate pain", "fever", "nausea", "vomiting", "diarrhea", "headache",
   "fatigue", "muscle aches", "sore throat", "cough", "runny nose"]

/-- The three bands configured for one vital name. -/
structure Bands where
  normal : ℚ × ℚ
  concerning : ℚ × ℚ
  critical : ℚ × ℚ

/-- `RiskAssessmentService.vital_ranges`. -/
def vital_ranges : List (String × Bands) :=
  [("heart_rate", ⟨(60, 100), (50, 120), (40, 150)⟩),
   ("systolic_bp", ⟨(90, 140), (80, 160), (70, 180)⟩),
   ("diastolic_bp", ⟨(60, 90), (50, 100), (40, 110)⟩),
   ("temperature_f", ⟨(97, 995/10), (96, 101), (95, 103)⟩),
   ("respiratory_rate", ⟨(12, 20), (10, 24), (8, 30)⟩),
   ("oxygen_saturation", ⟨(95, 100), (90, 94), (0, 89)⟩)]

/-- A value supplied in the vitals dict: Python `None`, a string, or a
number. -/
inductive VVal
  | vnone
  | vstr (s : String)
  | vnum (q : ℚ)

/-- `ranges[...][0] <= vital_value <= ranges[...][1]`. -/
def inBand (b : ℚ × ℚ) (x : ℚ) : Bool := decide (b.1 ≤ x ∧ x ≤ b.2)

/-- The banded severity ladder applied to one parsed vital value: outside
critical → 6, else outside concerning → 4, else outside normal → 2, else no
contribution. Unknown vital names are ignored. Returns
(score, factors, abnormal names). (Python formats the float in the factor
text; `toString` on `ℚ` stands in for that formatting.) -/
def scoreVital (name : String) (x : ℚ) : Nat × List String × List String :=
  match vital_ranges.lookup name with
  | none => (0, [], [])
  | some r =>
    if !(inBand r.critical x) then
      (6, ["Critical " ++ name ++ ": " ++ toString x], [name])
    else if !(inBand r.concerning x) then
      (4, ["Concerning " ++ name ++ ": " ++ toString x], [name])
    else if !(inBand r.normal x) then
      (2, ["Abnormal " ++ name ++ ": " ++ toString x], [name])
    else (0, [], [])

/-- One iteration of the vitals loop: skip `None`/`''`, parse to float
(a `ValueError` yields the "Invalid ..." factor and no score), then apply
the band ladder. -/
def vitalStep (name : String) (value : VVal) : Nat × List String × List String :=
  match value with
  | .vnone => (0, [], [])
  | .vstr s =>
    if s = "" then (0, [], [])
    else
      match parseFloatQ s with
      | none => (0, ["Invalid " ++ name ++ " value: " ++ s], [])
      | some x => scoreVital name x
  | .vnum q => scoreVital name q

structure SymptomRisk where
  score : Nat
  factors : List String
  symptom_count : Nat
  emergency_symptoms_detected : Bool

structure VitalsRisk where
  score : Nat
  factors : List String
  abnormal_vitals : List String
  vitals_provided : List String

structure ContextRisk where
  score : Nat
  factors : List String
  age_category : String

structure FollowupRisk where
  score : Nat
  factors : List String
deriving DecidableEq

/-- `' '.join(symptoms).lower()` — the haystack the symptom scorer matches
keywords against. -/
def symptomTextOf (symptoms : List String) : List Char :=
  (joinSpace (symptoms.map String.toList)).map Char.toLower

/-- `RiskAssessmentService._assess_symptom_risk`. The `try` body cannot
raise on a well-typed symptom list, so the scorer is total here. -/
def assess_symptom_risk (symptoms : List String) : SymptomRisk :=
  let symptom_text := symptomTextOf symptoms
  let e := tierScan symptom_text 8 "Emergency symptom detected: " emergency_keywords
  let h := tierScan symptom_text 5 "High-risk symptom: " high_risk_keywords
  let m := tierScan symptom_text 2 "Moderate-risk symptom: " moderate_risk_keywords
  let c1 : Nat × List String :=
    if hasSub "fever".toList symptom_text && hasSub "headache".toList symptom_text then
      (2, ["Fever + headache combination increases risk"])
    else (0, [])
  let c2 : Nat × List String :=
    if hasSub "chest pain".toList symptom_text &&
        hasSub "shortness of breath".toList symptom_text then
      (6, ["Chest pain + breathing difficulty - high risk combination"])
    else (0, [])
  { score := min (e.1 + h.1 + m.1 + c1.1 + c2.1) 10
    factors := e.2 ++ h.2 ++ m.2 ++ c1.2 ++ c2.2
    symptom_count := symptoms.length
    emergency_symptoms_detected :=
      emergency_keywords.any (fun es => hasSub es.toList symptom_text) }

/-- The per-vital step results of the vitals loop, in dict order. -/
def vitalsSteps (vitals : List (String × VVal)) :
    List (Nat × List String × List String) :=
  vitals.map (fun p => vitalStep p.1 p.2)

/-- The accumulated (uncapped) `risk_score` of the vitals loop. -/
def vitalsRawScore (vitals : List (String × VVal)) : Nat :=
  (vitalsSteps vitals).foldr (fun s a => s.1 + a) 0

/-- The accumulated `risk_factors` of the vitals loop. -/
def vitalsFactors (vitals : List (String × VVal)) : List String :=
  (vitalsSteps vitals).foldr (fun s a => s.2.1 ++ a) []

/-- The accumulated `abnormal_vitals` of the vitals loop. -/
def vitalsAbnormal (vitals : List (String × VVal)) : List String :=
  (vitalsSteps vitals).foldr (fun s a => s.2.2 ++ a) []

/-- `RiskAssessmentService._assess_vital_signs_risk`, on the vitals dict in
iteration order. Per-vital `ValueError`s are caught inside the loop; the
loop itself cannot raise otherwise. -/
def assess_vital_signs_risk (vitals : List (String × VVal)) : VitalsRisk :=
  { score := min (vitalsRawScore vitals) 8
    factors := vitalsFactors vitals
    abnormal_vitals := vitalsAbnormal vitals
    vitals_provided := vitals.map Prod.fst }

/-- The `user_context` dict: the keys `_assess_context_risk` reads. -/
structure UserContext where
  age : Option Int
  medical_history : List String
  pregnant : Bool

/-- `high_risk_conditions` from `_assess_context_risk`. -/
def high_risk_conditions : List String :=
  ["diabetes", "heart disease", "hypertension", "asthma", "copd",
   "cancer", "immunocompromised", "kidney disease", "liver disease"]

/-- The age-based block of `_assess_context_risk`. `if age:` means a `None`
or `0` age contributes nothing (Python truthiness). -/
def ageRisk : Option Int → Nat × List String
  | some a =>
    if a ≠ 0 then
      if a ≥ 65 then (2, ["Age 65+ increases risk for complications"])
      else if a ≤ 2 then (3, ["Very young age increases risk"])
      else if a ≤ 12 then (1, ["Pediatric patient - increased monitoring needed"])
      else (0, [])
    else (0, [])
  | none => (0, [])

/-- The medical-history loop of `_assess_context_risk`: +2 per history entry
containing a high-risk-condition substring (lowercased). -/
def historyRisk (history : List String) : Nat × List String :=
  history.foldr
    (fun cond acc =>
      if high_risk_conditions.any (fun rc => hasSub rc.toList (lowerChars cond)) then
        (2 + acc.1, ("High-risk medical condition: " ++ cond) :: acc.2)
      else acc)
    (0, [])

/-- `RiskAssessmentService._get_age_category`. -/
def get_age_category (age : Int) : String :=
  if age ≤ 2 then "infant"
  else if age ≤ 12 then "child"
  else if age ≤ 17 then "adolescent"
  else if age ≤ 64 then "adult"
  else "senior"

/-- `RiskAssessmentService._assess_context_risk`. Total on a well-typed
context (its `try` body cannot raise). -/
def assess_context_risk (c : UserContext) : ContextRisk :=
  let a := ageRisk c.age
  let h := historyRisk c.medical_history
  let p : Nat × List String :=
    if c.pregnant then (2, ["Pregnancy requires special medical consideration"])
    else (0, [])
  { score := min (a.1 + h.1 + p.1) 6
    factors := a.2 ++ h.2 ++ p.2
    age_category :=
      match c.age with
      | some ag => if ag ≠ 0 then get_age_category ag else "unknown"
      | none => "unknown" }

/-- A `pain_scale` answer: a Python int or string. -/
inductive PainVal
  | pint (n : Int)
  | pstr (s : String)

/-- Python truthiness of a pain-scale answer (`if pain_scale:`). -/
def painTruthy : PainVal → Bool
  | .pint n => n ≠ 0
  | .pstr s => s ≠ ""

/-- Python `int(pain_scale)`: identity on ints, `parseIntPy` on strings
(`none` models the raised `ValueError`). -/
def intOfPain : PainVal → Option Int
  | .pint n => some n
  | .pstr s => parseIntPy s

/-- The `follow_up_data` dict: the keys `_assess_followup_risk` reads. -/
structure FollowUpData where
  pain_scale : Option PainVal
  symptom_progression : Option String
  breathing_difficulty : Option String

/-- The `try` body of `_assess_followup_risk`; `none` models the
`ValueError` raised by `int(pain_scale)` on a malformed answer, which
aborts the whole body. -/
def followupCore (f : FollowUpData) : Option (Nat × List String) :=
  let painStep : Option (Nat × List String) :=
    match f.pain_scale with
    | some pv =>
      if painTruthy pv then
        match intOfPain pv with
        | none => none
        | some pl =>
          if pl ≥ 8 then some (3, ["Severe pain level: " ++ toString pl ++ "/10"])
          else if pl ≥ 6 then some (2, ["Moderate-severe pain: " ++ toString pl ++ "/10"])
          else some (0, [])
      else some (0, [])
    | none => some (0, [])
  match painStep with
  | none => none
  | some ps =>
    let prog : Nat × List String :=
      if f.symptom_progression = some "Getting worse" then (2, ["Symptoms are worsening"])
      else if f.symptom_progression = some "Fluctuating" then (1, ["Symptoms are fluctuating"])
      else (0, [])
    let br : Nat × List String :=
      if f.breathing_difficulty = some "yes" then (4, ["Patient reports breathing difficulty"])
      else (0, [])
    some (min (ps.1 + prog.1 + br.1) 5, ps.2 ++ prog.2 ++ br.2)

/-- `RiskAssessmentService._assess_followup_risk`: the `except` clause turns
any exception in the body into the fixed fallback component. -/
def assess_followup_risk (f : FollowUpData) : FollowupRisk :=
  match followupCore f with
  | some r => { score := r.1, factors := r.2 }
  | none => { score := 1, factors := ["Follow-up assessment error"] }

/-- The four fields returned by `_determine_final_risk_level`. -/
structure FinalLevel where
  overall_risk_level : String
  urgency_level : String
  triage_category : String
  time_to_care : String

/-- `RiskAssessmentService._determine_final_risk_level`. -/
def determine_final_risk_level (total : Nat) : FinalLevel :=
  if total ≥ 15 then ⟨"CRITICAL", "emergency", "immediate", "Immediate (0-15 minutes)"⟩
  else if total ≥ 10 then ⟨"HIGH", "urgent", "urgent", "Within 1 hour"⟩
  else if total ≥ 6 then ⟨"MODERATE", "semi_urgent", "semi_urgent", "Within 2-4 hours"⟩
  else if total ≥ 3 then ⟨"LOW_MODERATE", "less_urgent", "less_urgent", "Within 24 hours"⟩
  else ⟨"LOW", "routine", "non_urgent", "Routine care (1-7 days)"⟩

/-- `RiskAssessmentService._generate_recommendations` (it only reads
`overall_risk_level`). -/
def generate_recommendations (risk_level : String) : List String :=
  if risk_level = "CRITICAL" then
    ["🚨 SEEK IMMEDIATE EMERGENCY CARE - Call 911 or go to nearest ER",
     "Do not drive yourself - call ambulance or have someone drive you",
     "If symptoms worsen while waiting, call 911 immediately"]
  else if risk_level = "HIGH" then
    ["⚠️ Seek urgent medical attention within 1 hour",
     "Go to urgent care center or emergency room",
     "Do not wait - this requires prompt medical evaluation"]
  else if risk_level = "MODERATE" then
    ["📞 Contact your healthcare provider within 2-4 hours",
     "Monitor symptoms closely for any worsening",
     "Consider urgent care if symptoms worsen"]
  else if risk_level = "LOW_MODERATE" then
    ["📅 Schedule appointment with healthcare provider within 24 hours",
     "Monitor symptoms and seek care if they worsen",
     "Rest, stay hydrated, and follow basic self-care measures"]
  else
    ["🏠 Home care and monitoring appropriate",
     "Schedule routine appointment if symptoms persist",
     "Rest, fluids, and over-the-counter remedies as appropriate"]

/-- `assessment_components` of a normal triage result. -/
structure TriageComponents where
  symptoms : SymptomRisk
  vitals : Option VitalsRisk
  context : Option ContextRisk
  follow_up : Option FollowupRisk

/-- The dict returned by `assess_comprehensive_risk`. `Option` fields are
keys present only on one of the two return paths (the error-path dict omits
the triage/assessment metadata; the normal dict has no `error` key). -/
structure TriageResult where
  overall_risk_level : String
  risk_score : Nat
  risk_factors : List String
  recommendations : List String
  urgency_level : String
  triage_category : Option String
  time_to_care : Option String
  assessment_components : Option TriageComponents
  assessment_timestamp : Option String
  assessment_version : Option String
  error : Option String

/-- `RiskAssessmentService.assess_comprehensive_risk`. `exc` is the fault
flag of the aggregator's own `try/except` (an exception raised in the
aggregator body itself — the sub-scorers each catch their own), `es` the
stringified exception, `ts` the timestamp. `if vitals:` / `if user_context:`
/ `if follow_up_data:` Python truthiness is modelled by `Option` (with the
explicit empty-dict check kept for the vitals list). -/
def assess_comprehensive_risk (exc : Bool) (es ts : String)
    (symptoms : List String) (vitals : Option (List (String × VVal)))
    (user_context : Option UserContext) (follow_up_data : Option FollowUpData) :
    TriageResult :=
  if exc then
    { overall_risk_level := "HIGH"
      risk_score := 10
      risk_factors := ["Assessment error - defaulting to high risk for safety"]
      recommendations := ["Seek immediate medical attention due to assessment system error"]
      urgency_level := "urgent"
      triage_category := none
      time_to_care := none
      assessment_components := none
      assessment_timestamp := none
      assessment_version := none
      error := some es }
  else
    let sym := assess_symptom_risk symptoms
    let vit : Option VitalsRisk :=
      match vitals with
      | some vs => if vs.isEmpty then none else some (assess_vital_signs_risk vs)
      | none => none
    let ctx : Option ContextRisk := user_context.map assess_context_risk
    let fup : Option FollowupRisk := follow_up_data.map assess_followup_risk
    let total := sym.score + (vit.map VitalsRisk.score).getD 0
      + (ctx.map ContextRisk.score).getD 0 + (fup.map FollowupRisk.score).getD 0
    let fin := determine_final_risk_level total
    { overall_risk_level := fin.overall_risk_level
      risk_score := total
      risk_factors := sym.factors ++ (vit.map VitalsRisk.factors).getD []
        ++ (ctx.map ContextRisk.factors).getD [] ++ (fup.map FollowupRisk.factors).getD []
      recommendations := generate_recommendations fin.overall_risk_level
      urgency_level := fin.urgency_level
      triage_category := some fin.triage_category
      time_to_care := some fin.time_to_care
      assessment_components := some ⟨sym, vit, ctx, fup⟩
      assessment_timestamp := some ts
      assessment_version := some "2.0"
      error := none }

/-! ## General lemmas about the keyword-tier loop -/

theorem tierScan_one (text : List Char) (w : Nat) (label k : String)
    (ks : List String) (h : k ∈ ks) (m : hasSub k.toList text = true) :
    w ≤ (tierScan text w label ks).1 := by
  induction ks with
  | nil => cases h
  | cons k0 ks ih =>
    simp only [tierScan]
    rcases List.mem_cons.mp h with rfl | h'
    · rw [if_pos m]
      exact Nat.le_add_right w _
    · split
      · exact le_trans (ih h') (by omega)
      · exact ih h'

theorem tierScan_two (text : List Char) (w : Nat) (label k1 k2 : String)
    (ks : List String) (hne : k1 ≠ k2) (h1 : k1 ∈ ks) (h2 : k2 ∈ ks)
    (m1 : hasSub k1.toList text = true) (m2 : hasSub k2.toList text = true) :
    w + w ≤ (tierScan text w label ks).1 := by
  induction ks with
  | nil => cases h1
  | cons k0 ks ih =>
    simp only [tierScan]
    rcases List.mem_cons.mp h1 with rfl | h1'
    · have h2' : k2 ∈ ks := by
        rcases List.mem_cons.mp h2 with rfl | h
        · exact absurd rfl hne
        · exact h
      rw [if_pos m1]
      have := tierScan_one text w label k2 ks h2' m2
      omega
    · rcases List.mem_cons.mp h2 with rfl | h2'
      · rw [if_pos m2]
        have := tierScan_one text w label k1 ks h1' m1
        omega
      · have := ih h1' h2'
        split
        · omega
        · omega

theorem tierScan_mem (text : List Char) (w : Nat) (label k : String)
    (ks : List String) (h : k ∈ ks) (m : hasSub k.toList text = true) :
    (label ++ k) ∈ (tierScan text w label ks).2 := by
  induction ks with
  | nil => cases h
  | cons k0 ks ih =>
    simp only [tierScan]
    rcases List.mem_cons.mp h with rfl | h'
    · rw [if_pos m]
      exact List.mem_cons_self _ _
    · split
      · exact List.mem_cons_of_mem _ (ih h')
      · exact ih h'

/-! ## Claim C2: crisis-detector fail-safe and sentinel unreachability -/

/-- C2. On any internally raised exception `assess_crisis_risk` returns the
fixed fail-safe result (level "high", sentinel score 999, the single error
indicator, both booleans true) instead of propagating the exception, and the
sentinel score 999 is unattainable on the normal scoring path (it is bounded
by 143). -/
theorem C2_crisis_fail_safe (exc : Bool) (ts : String) (inp : MHInput) :
    (exc = true →
      assess_crisis_risk exc ts inp =
        { risk_level := "high"
          risk_score := 999
          risk_indicators := ["Assessment system error - defaulting to high risk"]
          crisis_intervention_needed := true
          professional_referral_suggested := true
          assessment_timestamp := ts }) ∧
    (assess_crisis_risk false ts inp).risk_score ≠ 999 := by
  constructor
  · intro h
    subst h
    rfl
  · have hb := crisisRiskNormal_score_le ts inp
    simp only [assess_crisis_risk, Bool.false_eq_true, if_false]
    omega

/-- Witness for C2 at a concrete input. -/
theorem C2_crisis_fail_safe_witness :
    assess_crisis_risk true "2024-01-01T00:00:00"
        ⟨[], ["headache"], [], ""⟩ =
      { risk_level := "high"
        risk_score := 999
        risk_indicators := ["Assessment system error - defaulting to high risk"]
        crisis_intervention_needed := true
        professional_referral_suggested := true
        assessment_timestamp := "2024-01-01T00:00:00" } ∧
    (assess_crisis_risk false "2024-01-01T00:00:00"
        ⟨[], ["headache"], [], ""⟩).risk_score ≠ 999 :=
  ⟨(C2_crisis_fail_safe true "2024-01-01T00:00:00" ⟨[], ["headache"], [], ""⟩).1 rfl,
   (C2_crisis_fail_safe true "2024-01-01T00:00:00" ⟨[], ["headache"], [], ""⟩).2⟩

/-! ## Claim C3: the "suicidal thoughts" questionnaire input -/

/-- The input of claim C3: `responses={mood_rating:1, anxiety_level:10,
stress_level:10}`, `symptoms=["suicidal thoughts"]`, no triggers, no
support-system text. -/
def c3input : MHInput :=
  { responses := [("mood_rating", MHVal.int 1), ("anxiety_level", MHVal.int 10),
                  ("stress_level", MHVal.int 10)]
    symptoms := ["suicidal thoughts"]
    triggers := []
    support_system := "" }

/-- C3 is false on the code: no crisis keyword is a substring of
"suicidal thoughts" (in particular "suicide" is not), so the score is only
the numeric overlay 3+2+2 = 7 < 17 and the level is "high", not "crisis". -/
theorem C3_counterexample :
    (assess_crisis_risk false "t" c3input).risk_score = 7 ∧
    (assess_crisis_risk false "t" c3input).risk_level = "high" ∧
    (assess_crisis_risk false "t" c3input).crisis_intervention_needed = false := by
  refine ⟨?_, ?_, ?_⟩ <;> decide

/-- C3 amended: on that input the detector returns score 7 (numeric overlays
only: very low mood +3, high anxiety +2, high stress +2; no keyword hit since
"suicide" is not a substring of "suicidal thoughts"), level "high",
no crisis intervention, but a professional referral. -/
theorem C3_amended :
    (assess_crisis_risk false "t" c3input).risk_score = 7 ∧
    (assess_crisis_risk false "t" c3input).risk_level = "high" ∧
    (assess_crisis_risk false "t" c3input).risk_indicators =
      ["Very low mood rating", "High anxiety level", "High stress level"] ∧
    (assess_crisis_risk false "t" c3input).crisis_intervention_needed = false ∧
    (assess_crisis_risk false "t" c3input).professional_referral_suggested = true := by
  refine ⟨?_, ?_, ?_, ?_, ?_⟩ <;> decide

/-! ## Claim C4: the boolean flags versus the risk level -/

/-- C4 as stated (the biconditional `crisis_intervention_needed ↔ level =
crisis` holding on every result including the internal-error path) is false:
on the error path the level is "high" yet `crisis_intervention_needed` is
true. -/
theorem C4_counterexample :
    (assess_crisis_risk true "t" ⟨[], [], [], ""⟩).crisis_intervention_needed = true ∧
    (assess_crisis_risk true "t" ⟨[], [], [], ""⟩).risk_level ≠ "crisis" := by
  refine ⟨?_, ?_⟩ <;> decide

/-- C4 amended: on every normally computed result the booleans are exactly
`level == crisis` and `level ∈ {crisis, high}`; on the error path the level
is "high" with both booleans forced to true (so the intervention
biconditional deliberately does not hold there). -/
theorem C4_amended (ts : String) (inp : MHInput) :
    ((assess_crisis_risk false ts inp).crisis_intervention_needed = true ↔
      (assess_crisis_risk false ts inp).risk_level = "crisis") ∧
    ((assess_crisis_risk false ts inp).professional_referral_suggested = true ↔
      ((assess_crisis_risk false ts inp).risk_level = "crisis" ∨
        (assess_crisis_risk false ts inp).risk_level = "high")) ∧
    ((assess_crisis_risk true ts inp).risk_level = "high" ∧
      (assess_crisis_risk true ts inp).crisis_intervention_needed = true ∧
      (assess_crisis_risk true ts inp).professional_referral_suggested = true) := by
  refine ⟨?_, ?_, rfl, rfl, rfl⟩
  · simp only [assess_crisis_risk, Bool.false_eq_true, if_false, crisisRiskNormal,
      beq_iff_eq]
  · simp only [assess_crisis_risk, Bool.false_eq_true, if_false, crisisRiskNormal,
      Bool.or_eq_true, beq_iff_eq]

/-! ## Claim C8: the age rule of the context scorer -/

theorem ageRisk_fst_le (o : Option Int) : (ageRisk o).1 ≤ 3 := by
  rcases o with _ | a
  · simp [ageRisk]
  · simp only [ageRisk]
    split
    · split
      · simp
      · split
        · simp
        · split <;> simp
    · simp

/-- C8 as stated is false: Python's `if age:` treats age 0 as absent, so a
0-year-old (which satisfies `age <= 2`) gets no +3 contribution. -/
theorem C8_counterexample :
    (0 : Int) ≤ 2 ∧
    (assess_context_risk ⟨some 0, [], false⟩).score = 0 ∧
    (assess_context_risk ⟨some 0, [], false⟩).factors = [] := by
  refine ⟨by decide, ?_, ?_⟩ <;> decide

/-- C8 amended: for a context whose age is an integer the contribution is
+2 for age ≥ 65, +3 for age ≤ 2 **except age 0** (falsy, no contribution),
+1 for 2 < age ≤ 12, and nothing for 13–64; a pure-age context's component
score equals that contribution. -/
theorem C8_amended (a : Int) :
    (a ≥ 65 → ageRisk (some a) = (2, ["Age 65+ increases risk for complications"])) ∧
    (a ≠ 0 → a ≤ 2 → ageRisk (some a) = (3, ["Very young age increases risk"])) ∧
    (2 < a → a ≤ 12 →
      ageRisk (some a) = (1, ["Pediatric patient - increased monitoring needed"])) ∧
    (13 ≤ a → a ≤ 64 → ageRisk (some a) = (0, [])) ∧
    ageRisk (some 0) = (0, []) ∧
    (assess_context_risk ⟨some a, [], false⟩).score = (ageRisk (some a)).1 := by
  refine ⟨?_, ?_, ?_, ?_, by decide, ?_⟩
  · intro h
    have h0 : a ≠ 0 := by omega
    simp [ageRisk, h0, h]
  · intro h0 h2
    have h65 : ¬ a ≥ 65 := by omega
    simp [ageRisk, h0, h65, h2]
  · intro hlo hhi
    have h0 : a ≠ 0 := by omega
    have h65 : ¬ a ≥ 65 := by omega
    have h2 : ¬ a ≤ 2 := by omega
    simp [ageRisk, h0, h65, h2, hhi]
  · intro hlo hhi
    have h0 : a ≠ 0 := by omega
    have h65 : ¬ a ≥ 65 := by omega
    have h2 : ¬ a ≤ 2 := by omega
    have h12 : ¬ a ≤ 12 := by omega
    simp [ageRisk, h0, h65, h2, h12]
  · have hb := ageRisk_fst_le (some a)
    simp only [assess_context_risk, historyRisk, List.foldr, Bool.false_eq_true,
      if_false, Nat.add_zero]
    omega

/-- Witness for C8 at concrete ages. -/
theorem C8_amended_witness :
    ((70 : Int) ≥ 65 ∧
      ageRisk (some 70) = (2, ["Age 65+ increases risk for complications"])) ∧
    ((1 : Int) ≠ 0 ∧ (1 : Int) ≤ 2 ∧
      ageRisk (some 1) = (3, ["Very young age increases risk"])) :=
  ⟨⟨by decide, (C8_amended 70).1 (by decide)⟩,
   ⟨by decide, by decide, (C8_amended 1).2.1 (by decide) (by decide)⟩⟩

/-! ## Claim C9: the aggregator is deterministic -/

/-- C9. The only impure inputs of `assess_comprehensive_risk` are the clock
(`ts`) and the stringified exception; on the normal path the score, band and
factor list do not depend on the timestamp, so two calls on identical intake
data return identical `risk_score`, `overall_risk_level` and `risk_factors`
(the scorers read no other state). -/
theorem C9_deterministic (es ts1 ts2 : String) (symptoms : List String)
    (vitals : Option (List (String × VVal))) (user_context : Option UserContext)
    (follow_up_data : Option FollowUpData) :
    (assess_comprehensive_risk false es ts1 symptoms vitals user_context
        follow_up_data).risk_score =
      (assess_comprehensive_risk false es ts2 symptoms vitals user_context
        follow_up_data).risk_score ∧
    (assess_comprehensive_risk false es ts1 symptoms vitals user_context
        follow_up_data).overall_risk_level =
      (assess_comprehensive_risk false es ts2 symptoms vitals user_context
        follow_up_data).overall_risk_level ∧
    (assess_comprehensive_risk false es ts1 symptoms vitals user_context
        follow_up_data).risk_factors =
      (assess_comprehensive_risk false es ts2 symptoms vitals user_context
        follow_up_data).risk_factors :=
  ⟨rfl, rfl, rfl⟩

/-! ## Claim C6: chest pain plus breathing difficulty -/

/-- C6 as stated is false for "difficulty breathing": the combination bonus
requires the literal "shortness of breath", so with symptoms
`["chest pain", "difficulty breathing"]` the score is 10 (8+8 capped) and
both emergency factors fire, but the combination-bonus factor is absent. -/
theorem C6_counterexample :
    (assess_symptom_risk ["chest pain", "difficulty breathing"]).score = 10 ∧
    (assess_symptom_risk ["chest pain", "difficulty breathing"]).factors =
      ["Emergency symptom detected: chest pain",
       "Emergency symptom detected: difficulty breathing"] ∧
    "Chest pain + breathing difficulty - high risk combination" ∉
      (assess_symptom_risk ["chest pain", "difficulty breathing"]).factors := by
  refine ⟨?_, ?_, ?_⟩ <;> decide

/-- C6 amended: whenever the joined lowercase symptom text contains
"chest pain" together with "difficulty breathing" or "shortness of breath",
the symptom score is 10 (two +8 emergency hits reach the cap) and the
matched emergency-keyword factors are present; the combination-bonus factor
is additionally present when "shortness of breath" matched (the bonus tests
for that keyword only, not for "difficulty breathing"). -/
theorem C6_amended (symptoms : List String)
    (hc : hasSub "chest pain".toList (symptomTextOf symptoms) = true)
    (hor : hasSub "difficulty breathing".toList (symptomTextOf symptoms) = true ∨
      hasSub "shortness of breath".toList (symptomTextOf symptoms) = true) :
    (assess_symptom_risk symptoms).score = 10 ∧
    "Emergency symptom detected: chest pain" ∈ (assess_symptom_risk symptoms).factors ∧
    (hasSub "difficulty breathing".toList (symptomTextOf symptoms) = true →
      "Emergency symptom detected: difficulty breathing" ∈
        (assess_symptom_risk symptoms).factors) ∧
    (hasSub "shortness of breath".toList (symptomTextOf symptoms) = true →
      "Emergency symptom detected: shortness of breath" ∈
        (assess_symptom_risk symptoms).factors ∧
      "Chest pain + breathing difficulty - high risk combination" ∈
        (assess_symptom_risk symptoms).factors) := by
  have h16 : 16 ≤ (tierScan (symptomTextOf symptoms) 8
      "Emergency symptom detected: " emergency_keywords).1 := by
    rcases hor with hd | hs
    · have := tierScan_two (symptomTextOf symptoms) 8 "Emergency symptom detected: "
        "chest pain" "difficulty breathing" emergency_keywords
        (by decide) (by decide) (by decide) hc hd
      omega
    · have := tierScan_two (symptomTextOf symptoms) 8 "Emergency symptom detected: "
        "chest pain" "shortness of breath" emergency_keywords
        (by decide) (by decide) (by decide) hc hs
      omega
  refine ⟨?_, ?_, ?_, ?_⟩
  · simp only [assess_symptom_risk]
    omega
  · have m1 := tierScan_mem (symptomTextOf symptoms) 8 "Emergency symptom detected: "
      "chest pain" emergency_keywords (by decide) hc
    simp only [assess_symptom_risk]
    exact List.mem_append_left _ (List.mem_append_left _ (List.mem_append_left _
      (List.mem_append_left _ m1)))
  · intro hd
    have m2 := tierScan_mem (symptomTextOf symptoms) 8 "Emergency symptom detected: "
      "difficulty breathing" emergency_keywords (by decide) hd
    simp only [assess_symptom_risk]
    exact List.mem_append_left _ (List.mem_append_left _ (List.mem_append_left _
      (List.mem_append_left _ m2)))
  · intro hs
    constructor
    · have m3 := tierScan_mem (symptomTextOf symptoms) 8 "Emergency symptom detected: "
        "shortness of breath" emergency_keywords (by decide) hs
      simp only [assess_symptom_risk]
      exact List.mem_append_left _ (List.mem_append_left _ (List.mem_append_left _
        (List.mem_append_left _ m3)))
    · have hcond : (hasSub "chest pain".toList (symptomTextOf symptoms) &&
          hasSub "shortness of breath".toList (symptomTextOf symptoms)) = true := by
        rw [Bool.and_eq_true]
        exact ⟨hc, hs⟩
      simp only [assess_symptom_risk]
      apply List.mem_append_right
      rw [if_pos hcond]
      simp

/-- Witness for C6 at a concrete symptom list. -/
theorem C6_amended_witness :
    hasSub "chest pain".toList (symptomTextOf ["Chest Pain", "shortness of breath"]) = true ∧
    (assess_symptom_risk ["Chest Pain", "shortness of breath"]).score = 10 ∧
    "Chest pain + breathing difficulty - high risk combination" ∈
      (assess_symptom_risk ["Chest Pain", "shortness of breath"]).factors :=
  ⟨by decide,
   (C6_amended ["Chest Pain", "shortness of breath"] (by decide)
      (Or.inr (by decide))).1,
   ((C6_amended ["Chest Pain", "shortness of breath"] (by decide)
      (Or.inr (by decide))).2.2.2 (by decide)).2⟩

/-! ## Claim C5: band nesting and normal-band values -/

/-- C5 is right about the intent but the code breaks it for
`oxygen_saturation`: its configured bands (normal (95,100), concerning
(90,94), critical (0,89)) are **not** nested — the normal band does not lie
inside the concerning band — and a saturation of 98, inside the normal
band, is scored as outside the critical band: +6 and a
"Critical oxygen_saturation" factor, contradicting the scorer's own
`normal` label for (95,100). -/
theorem C5_code_bug :
    vital_ranges.lookup "oxygen_saturation" =
      some ⟨(95, 100), (90, 94), (0, 89)⟩ ∧
    ¬ ((90 : ℚ) ≤ 95 ∧ (100 : ℚ) ≤ 94) ∧
    inBand (95, 100) 98 = true ∧
    (assess_vital_signs_risk [("oxygen_saturation", VVal.vnum 98)]).score = 6 ∧
    (assess_vital_signs_risk [("oxygen_saturation", VVal.vnum 98)]).factors =
      ["Critical oxygen_saturation: " ++ toString (98 : ℚ)] := by
  refine ⟨rfl, by norm_num, by decide, by decide, by decide⟩

/-! ## Claim C7: recovery from unparsable field values -/

/-- C7 as stated is false on both scorers: an unparsable vital value *does*
emit an "Invalid ..." factor, and a malformed `pain_scale` aborts the whole
follow-up scorer (no remaining field is scored — the provided
"Getting worse" progression leaves no trace) and emits an error factor. -/
theorem C7_counterexample :
    (assess_vital_signs_risk [("heart_rate", VVal.vstr "abc")]).factors =
      ["Invalid heart_rate value: abc"] ∧
    assess_followup_risk ⟨some (PainVal.pstr "abc"), some "Getting worse", none⟩ =
      ⟨1, ["Follow-up assessment error"]⟩ := by
  refine ⟨?_, ?_⟩ <;> decide

/-- C7 amended: the vitals scorer recovers locally from an unparsable value
— it adds no score for the offending field and still scores the remaining
fields — but emits an "Invalid name value: v" factor for it; the follow-up
scorer does not recover locally: a malformed `pain_scale` raises
`ValueError` out of the whole body and its `except` clause returns the
fixed fallback (score 1, single error factor) with no remaining field
scored. -/
theorem C7_amended (name s : String) (rest : List (String × VVal))
    (hne : s ≠ "") (hp : parseFloatQ s = none)
    (f : FollowUpData) (ps : String) (hps : f.pain_scale = some (PainVal.pstr ps))
    (hne2 : ps ≠ "") (hip : parseIntPy ps = none) :
    vitalStep name (VVal.vstr s) = (0, ["Invalid " ++ name ++ " value: " ++ s], []) ∧
    (assess_vital_signs_risk ((name, VVal.vstr s) :: rest)).score =
      min (vitalsRawScore rest) 8 ∧
    (assess_vital_signs_risk ((name, VVal.vstr s) :: rest)).factors =
      ("Invalid " ++ name ++ " value: " ++ s) :: vitalsFactors rest ∧
    followupCore f = none ∧
    assess_followup_risk f = ⟨1, ["Follow-up assessment error"]⟩ := by
  have hstep : vitalStep name (VVal.vstr s) =
      (0, ["Invalid " ++ name ++ " value: " ++ s], []) := by
    simp [vitalStep, hne, hp]
  have hcore : followupCore f = none := by
    simp [followupCore, hps, painTruthy, hne2, intOfPain, hip]
  refine ⟨hstep, ?_, ?_, hcore, ?_⟩
  · simp [assess_vital_signs_risk, vitalsRawScore, vitalsSteps, hstep]
  · simp [assess_vital_signs_risk, vitalsFactors, vitalsSteps, hstep]
  · simp [assess_followup_risk, hcore]

/-- Witness for C7: with `heart_rate="abc"` and a second, parsable vital,
only the second one is scored (oxygen 85 is inside the critical band but
outside the concerning band: +4) while the invalid factor is emitted; the
malformed-pain follow-up collapses to the fallback. -/
theorem C7_amended_witness :
    ("abc" : String) ≠ "" ∧ parseFloatQ "abc" = none ∧ parseIntPy "abc" = none ∧
    (assess_vital_signs_risk
      [("heart_rate", VVal.vstr "abc"), ("oxygen_saturation", VVal.vnum 85)]).score =
      min (vitalsRawScore [("oxygen_saturation", VVal.vnum 85)]) 8 ∧
    (assess_vital_signs_risk
      [("heart_rate", VVal.vstr "abc"), ("oxygen_saturation", VVal.vnum 85)]).factors =
      "Invalid heart_rate value: abc" :: vitalsFactors [("oxygen_saturation", VVal.vnum 85)] ∧
    vitalsRawScore [("oxygen_saturation", VVal.vnum 85)] = 4 ∧
    assess_followup_risk ⟨some (PainVal.pstr "abc"), some "Getting worse", none⟩ =
      ⟨1, ["Follow-up assessment error"]⟩ :=
  ⟨by decide, by decide, by decide,
   (C7_amended "heart_rate" "abc" [("oxygen_saturation", VVal.vnum 85)]
      (by decide) (by decide)
      ⟨some (PainVal.pstr "abc"), some "Getting worse", none⟩ "abc"
      rfl (by decide) (by decide)).2.1,
   (C7_amended "heart_rate" "abc" [("oxygen_saturation", VVal.vnum 85)]
      (by decide) (by decide)
      ⟨some (PainVal.pstr "abc"), some "Getting worse", none⟩ "abc"
      rfl (by decide) (by decide)).2.2.1,
   by decide,
   (C7_amended "heart_rate" "abc" [("oxygen_saturation", VVal.vnum 85)]
      (by decide) (by decide)
      ⟨some (PainVal.pstr "abc"), some "Getting worse", none⟩ "abc"
      rfl (by decide) (by decide)).2.2.2.2⟩

/-! ## Claim C1: aggregator failure semantics -/

/-- C1 as stated is false: an exception raised *inside a component scorer*
(here the `ValueError` from `int('abc')` in the follow-up scorer, modelled
by `followupCore = none`) is caught by that scorer's own `except`, which
returns score 1 — the aggregate is then LOW/1/routine, not the
fail-safe-high outcome, and the result does drop to LOW risk. -/
theorem C1_counterexample :
    followupCore ⟨some (PainVal.pstr "abc"), none, none⟩ = none ∧
    (assess_comprehensive_risk false "e" "t" [] none none
      (some ⟨some (PainVal.pstr "abc"), none, none⟩)).overall_risk_level = "LOW" ∧
    (assess_comprehensive_risk false "e" "t" [] none none
      (some ⟨some (PainVal.pstr "abc"), none, none⟩)).risk_score = 1 ∧
    (assess_comprehensive_risk false "e" "t" [] none none
      (some ⟨some (PainVal.pstr "abc"), none, none⟩)).urgency_level = "routine" ∧
    (assess_comprehensive_risk false "e" "t" [] none none
      (some ⟨some (PainVal.pstr "abc"), none, none⟩)).risk_factors =
      ["Follow-up assessment error"] := by
  refine ⟨?_, ?_, ?_, ?_, ?_⟩ <;> decide

/-- C1 amended: an exception in the **aggregator body itself** produces the
fail-safe-high dict (HIGH, 10, urgent, synthetic factor, error-specific
recommendation, stringified error) and is never propagated; an exception
inside a component scorer is caught by that scorer's own handler and
converted to a fixed fallback component (follow-up: score 1 with an error
factor), after which aggregation proceeds normally — so it does not produce
the fail-safe-high outcome and the total can map to LOW. -/
theorem C1_amended (es ts : String) (symptoms : List String)
    (vitals : Option (List (String × VVal))) (user_context : Option UserContext)
    (follow_up_data : Option FollowUpData) :
    assess_comprehensive_risk true es ts symptoms vitals user_context
        follow_up_data =
      { overall_risk_level := "HIGH"
        risk_score := 10
        risk_factors := ["Assessment error - defaulting to high risk for safety"]
        recommendations := ["Seek immediate medical attention due to assessment system error"]
        urgency_level := "urgent"
        triage_category := none
        time_to_care := none
        assessment_components := none
        assessment_timestamp := none
        assessment_version := none
        error := some es } ∧
    (∀ f : FollowUpData, followupCore f = none →
      assess_followup_risk f = ⟨1, ["Follow-up assessment error"]⟩) := by
  refine ⟨rfl, ?_⟩
  intro f hf
  simp [assess_followup_risk, hf]

/-- Witness for C1 at a concrete faulty follow-up payload. -/
theorem C1_amended_witness :
    followupCore ⟨some (PainVal.pstr "12a"), none, none⟩ = none ∧
    assess_followup_risk ⟨some (PainVal.pstr "12a"), none, none⟩ =
      ⟨1, ["Follow-up assessment error"]⟩ :=
  ⟨by decide,
   (C1_amended "" "" [] none none none).2
     ⟨some (PainVal.pstr "12a"), none, none⟩ (by decide)⟩

/-! ## Input sanitizer (`sanitize_mental_health_input`)

The eight `dangerous_patterns` regexes use only literal characters
(case-insensitive under `re.IGNORECASE`), `\s*`, `[^>]*` and a lazy `.*?`
(which does not cross a newline), so they are modelled by a small token
matcher; `re.sub` scans left to right, replacing each leftmost match with
`[REMOVED]` and resuming after it. The recursions carry an explicit fuel
argument (one character of input is consumed per step, so the supplied fuel
is always sufficient) to keep them structural. -/

/-- One token of a dangerous-pattern regex. -/
inductive RTok
  | lit (c : Char)
  | wsStar
  | notGtStar
  | lazyAny

/-- Python `\s`: space, tab, newline, carriage return, vertical tab, form
feed. -/
def isSpacePy (c : Char) : Bool :=
  c == ' ' || c == '\t' || c == '\n' || c == '\r' ||
    c == Char.ofNat 11 || c == Char.ofNat 12

/-- Anchored match of a token list at the head of `s`, returning the rest of
the input after the match. `[^>]*` and `\s*` are greedy (no backtracking is
needed: the token after them can never match a character they consume);
`.*?` is lazy — shortest match first — and does not consume a newline. -/
def matchToksF : Nat → List RTok → List Char → Option (List Char)
  | 0, _, _ => none
  | _ + 1, [], s => some s
  | _ + 1, .lit _ :: _, [] => none
  | fuel + 1, .lit c :: ts, x :: xs =>
    if x.toLower == c.toLower then matchToksF fuel ts xs else none
  | fuel + 1, .wsStar :: ts, s => matchToksF fuel ts (s.dropWhile isSpacePy)
  | fuel + 1, .notGtStar :: ts, s =>
    matchToksF fuel ts (s.dropWhile (fun c => c != '>'))
  | fuel + 1, .lazyAny :: ts, s =>
    match matchToksF fuel ts s with
    | some r => some r
    | none =>
      match s with
      | [] => none
      | c :: xs => if c == '\n' then none else matchToksF fuel (.lazyAny :: ts) xs

/-- `matchToksF` with enough fuel (every recursive call shrinks
`toks.length + s.length`). -/
def matchToks (toks : List RTok) (s : List Char) : Option (List Char) :=
  matchToksF (toks.length + s.length + 1) toks s

/-- `re.sub(pattern, repl, text)`: at each position try an anchored match;
on success emit `repl` and resume after the match, otherwise keep the
character and move on. (All eight patterns consume at least one character,
so a successful match always shortens the input.) -/
def reSubAuxF : Nat → List RTok → List Char → List Char → List Char
  | _, _, _, [] => []
  | 0, _, _, l => l
  | fuel + 1, toks, repl, c :: cs =>
    match matchToks toks (c :: cs) with
    | some rest =>
      if rest.length < cs.length + 1 then repl ++ reSubAuxF fuel toks repl rest
      else c :: reSubAuxF fuel toks repl cs
    | none => c :: reSubAuxF fuel toks repl cs

/-- `reSubAuxF` with enough fuel (each step consumes at least one input
character). -/
def reSub (toks : List RTok) (repl : List Char) (s : List Char) : List Char :=
  reSubAuxF s.length toks repl s

/-- A regex made of literal characters only. -/
def strToks (s : String) : List RTok := s.toList.map RTok.lit

/-- The `dangerous_patterns` list of `sanitize_mental_health_input`, in
source order. -/
def dangerous_patterns : List (List RTok) :=
  [strToks "<script" ++ [RTok.notGtStar, RTok.lit '>', RTok.lazyAny] ++ strToks "</script>",
   strToks "javascript:",
   strToks "onload" ++ [RTok.wsStar, RTok.lit '='],
   strToks "onerror" ++ [RTok.wsStar, RTok.lit '='],
   strToks "eval" ++ [RTok.wsStar, RTok.lit '('],
   strToks "document.",
   strToks "window.",
   strToks "alert" ++ [RTok.wsStar, RTok.lit '(']]

/-- The inner `clean_text`: apply the eight substitutions in order. -/
def cleanText (s : String) : String :=
  String.mk (dangerous_patterns.foldl
    (fun t p => reSub p "[REMOVED]".toList t) s.toList)

/-- A Python value as handled by `clean_dict`: strings are cleaned, dicts
and lists are cleaned recursively, everything else is returned as is. -/
inductive PyVal
  | str (s : String)
  | int (n : Int)
  | list (l : List PyVal)
  | dict (l : List (String × PyVal))
  | pynone

mutual

/-- The inner `clean_dict` of `sanitize_mental_health_input`. -/
def cleanVal : PyVal → PyVal
  | .str s => .str (cleanText s)
  | .int n => .int n
  | .pynone => .pynone
  | .list l => .list (cleanList l)
  | .dict d => .dict (cleanPairs d)

/-- `clean_dict` over a list value. -/
def cleanList : List PyVal → List PyVal
  | [] => []
  | x :: xs => cleanVal x :: cleanList xs

/-- `clean_dict` over a dict value (keys are kept as is). -/
def cleanPairs : List (String × PyVal) → List (String × PyVal)
  | [] => []
  | (k, v) :: xs => (k, cleanVal v) :: cleanPairs xs

end

/-- `MentalHealthSecurityService.sanitize_mental_health_input`. `exc` is the
fault flag of its `try/except`: on an internal error the handler returns the
**original** input dict (`return data`), with no substitution applied. -/
def sanitize_mental_health_input (exc : Bool) (d : PyVal) : PyVal :=
  if exc then d else cleanVal d

/-! ## Claim C10: sanitizer error path returns the input unchanged -/

/-- C10. The sanitizer never propagates an exception (its whole body is
wrapped, the handler returning a value), but on the internal-error path it
returns the original input unchanged — so a dangerous payload such as
"javascript:alert(1)" passes through unsubstituted there, while the normal
path would have replaced both dangerous substrings. -/
theorem C10_sanitize_error_path (d : PyVal) :
    sanitize_mental_health_input true d = d ∧
    sanitize_mental_health_input true
        (PyVal.dict [("support_system", PyVal.str "javascript:alert(1)")]) =
      PyVal.dict [("support_system", PyVal.str "javascript:alert(1)")] ∧
    sanitize_mental_health_input false
        (PyVal.dict [("support_system", PyVal.str "javascript:alert(1)")]) =
      PyVal.dict [("support_system", PyVal.str "[REMOVED][REMOVED]1)")] :=
  ⟨rfl, rfl, by
    simp [sanitize_mental_health_input, cleanVal, cleanPairs]
    decide⟩
